import Mathlib

/-
Verification of the OAuth2 token cache/refresh and Gateway tool-name
resolution logic of the neo4j-partners/aws-starter repository.

The Python sources are shallowly embedded as executable Lean functions:
  - src/aura-agents/src/models.py      (TokenResponse, CachedToken)
  - src/aura-agents/src/client.py      (AuraAgentClient token cache, invoke)
  - src/langgraph-neo4j-mcp-agent/agent.py  (check_token_expiry, refresh_token)
  - src/neo4j-agentcore-mcp-server/client/mcp_operations.py
        (get_tool_map, resolve_tool_name)
  - src/neo4j-mcp-server/client/demo.py and
    src/simple-oauth-gateway/client/demo.py  (token cache, tool-name fallback)

Machine times are modelled as Int seconds (UTC timestamps); HTTP traffic is
modelled by passing the response a request would receive as an explicit
argument and counting the requests performed in the returned value.
-/

set_option autoImplicit false

namespace AwsStarter

/-! ## Delimiter splitting (Python str.split on the 3-character "___") -/

/-- Models Python `"___" in s` (substring containment of the 3-underscore
delimiter), scanning left to right. -/
def hasDelim : List Char → Bool
  | '_' :: '_' :: '_' :: _ => true
  | _ :: rest => hasDelim rest
  | [] => false

/-- Models Python `s.split("___", 1)[1]`: the suffix after the first
occurrence of the delimiter, or `none` when the delimiter does not occur. -/
def afterDelim : List Char → Option (List Char)
  | '_' :: '_' :: '_' :: rest => some rest
  | _ :: rest => afterDelim rest
  | [] => none

/-- Models Python `s.split("___")`: split on every non-overlapping occurrence
of the delimiter, scanning left to right.  Always returns a non-empty list. -/
def splitDelim : List Char → List (List Char)
  | '_' :: '_' :: '_' :: rest => [] :: splitDelim rest
  | c :: rest =>
    match splitDelim rest with
    | [] => [[c]]
    | p :: ps => (c :: p) :: ps
  | [] => [[]]

/-! ## Python dict model (insertion order preserved, insert replaces) -/

/-- Models Python `d[k] = v` on a dict represented as an association list in
insertion order: replace the binding in place when `k` is present, else
append it. -/
def dinsert : List (String × String) → String → String → List (String × String)
  | [], k, v => [(k, v)]
  | (k', v') :: rest, k, v =>
    if k' = k then (k, v) :: rest else (k', v') :: dinsert rest k v

/-- Models Python `d[k]` / `k in d`: the value bound to `k`, if any. -/
def dget? : List (String × String) → String → Option String
  | [], _ => none
  | (k', v') :: rest, k => if k' = k then some v' else dget? rest k

/-- Models Python `d.get(k, fallback)`. -/
def dgetD (m : List (String × String)) (k fallback : String) : String :=
  (dget? m k).getD fallback

/-! ## aura-agents: models.py -/

/-- Body of a JSON token-endpoint response as received over the wire; the
`token_type` and `expires_in` fields may be absent. -/
structure TokenBody where
  access_token : String
  token_type : Option String
  expires_in : Option Int
deriving DecidableEq, Repr

/-- Embeds the pydantic model `TokenResponse` (models.py lines 8-13):
`access_token: str`, `token_type: str = "bearer"`, `expires_in: int = 3600`. -/
structure TokenResponse where
  access_token : String
  token_type : String
  expires_in : Int
deriving DecidableEq, Repr

/-- Pydantic validation of a response body against `TokenResponse`, applying
the defaults for absent fields. -/
def TokenResponse.ofJson (data : TokenBody) : TokenResponse :=
  ⟨data.access_token, data.token_type.getD "bearer", data.expires_in.getD 3600⟩

/-- Embeds `CachedToken` (models.py lines 112-116): an access token together
with its absolute UTC expiry, in seconds. -/
structure CachedToken where
  access_token : String
  expires_at : Int
deriving DecidableEq, Repr

/-- Embeds `CachedToken.is_expired` (models.py lines 118-124):
`datetime.now(utc) >= expires_at - timedelta(seconds=buffer_seconds)`.
The Python default argument is `buffer_seconds = 60`; every call site in
client.py uses that default, so callers below pass 60 explicitly. -/
def CachedToken.is_expired (t : CachedToken) (now : Int) (buffer_seconds : Int) : Bool :=
  decide (now ≥ t.expires_at - buffer_seconds)

/-! ## aura-agents: client.py -/

/-- Embeds the exception classes of client.py: `AuthenticationError` and
`InvocationError` (both subclasses of `AuraAgentError`), carrying the
formatted message string they are raised with. -/
inductive AuraAgentError where
  | authenticationError (msg : String)
  | invocationError (msg : String)
deriving DecidableEq, Repr

/-- True exactly on the `AuthenticationError` branch of a result. -/
def isAuthenticationError {α : Type} : Except AuraAgentError α → Bool
  | Except.error (AuraAgentError.authenticationError _) => true
  | _ => false

/-- The mutable state of an `AuraAgentClient`: its `_cached_token` field
(client.py line 91). -/
structure ClientState where
  _cached_token : Option CachedToken
deriving DecidableEq, Repr

/-- An HTTP response from the OAuth2 token endpoint: status code, raw text
(used in error messages) and parsed JSON body. -/
structure TokenHttpResponse where
  status_code : Nat
  text : String
  json : TokenBody
deriving DecidableEq, Repr

/-- An HTTP response from the agent invoke endpoint; the success payload is
kept opaque as the raw JSON string handed to `AgentResponse.from_api_response`. -/
structure AgentHttpResponse where
  status_code : Nat
  text : String
  json : String
deriving DecidableEq, Repr

/-- Embeds `AuraAgentClient._parse_token_response` (client.py lines 109-113):
validate the body as a `TokenResponse`, then cache the token with
`expires_at = now + expires_in`. -/
def _parse_token_response (now : Int) (data : TokenBody) : CachedToken :=
  let token := TokenResponse.ofJson data
  ⟨token.access_token, now + token.expires_in⟩

/-- The refresh arm shared by `_get_token_sync` and `_get_token_async`
(client.py lines 120-135 and 142-157): POST to the token endpoint; on a
status other than 200 raise `AuthenticationError` with the status code and
response text; otherwise store the parsed token as the new cached token and
return its access token.  The `Nat` component counts HTTP requests made. -/
def _token_refresh_request (now : Int) (resp : TokenHttpResponse) :
    Except AuraAgentError (String × ClientState) × Nat :=
  if resp.status_code ≠ 200 then
    (Except.error (AuraAgentError.authenticationError
      ("Failed to obtain access token: " ++ toString resp.status_code ++ " - " ++ resp.text)), 1)
  else
    let tok := _parse_token_response now resp.json
    (Except.ok (tok.access_token, ⟨some tok⟩), 1)

/-- Embeds `AuraAgentClient._get_token_sync` (client.py lines 115-135): if a
cached token exists and is not expired, return it without any HTTP request;
otherwise perform the token exchange.  `resp` is the response the token
endpoint would give; the `Nat` component counts HTTP requests made. -/
def _get_token_sync (st : ClientState) (now : Int) (resp : TokenHttpResponse) :
    Except AuraAgentError (String × ClientState) × Nat :=
  match st._cached_token with
  | some t =>
    if t.is_expired now 60 = false then (Except.ok (t.access_token, st), 0)
    else _token_refresh_request now resp
  | none => _token_refresh_request now resp

/-- Embeds `AuraAgentClient._get_token_async` (client.py lines 137-157),
whose body is line-for-line the awaited form of `_get_token_sync`. -/
def _get_token_async (st : ClientState) (now : Int) (resp : TokenHttpResponse) :
    Except AuraAgentError (String × ClientState) × Nat :=
  match st._cached_token with
  | some t =>
    if t.is_expired now 60 = false then (Except.ok (t.access_token, st), 0)
    else _token_refresh_request now resp
  | none => _token_refresh_request now resp

/-- Observable HTTP activity of one `invoke` call: how many token-endpoint
requests and agent-endpoint requests were made, and which bearer tokens the
agent-endpoint requests carried, in order. -/
structure Trace where
  token_requests : Nat
  agent_requests : Nat
  tokens_sent : List String
deriving DecidableEq, Repr

/-- Embeds `AuraAgentClient.invoke` (client.py lines 159-207): get a token
(refreshing if needed), POST the question; on a non-200 response, when the
status is 401 clear `_cached_token`, get a fresh token and retry the POST
exactly once, and if the response is still not 200 raise `InvocationError`;
a non-200 non-401 first response raises `InvocationError` directly.
`tokenResp` is the response the token endpoint would give to a refresh;
`firstResp` and `retryResp` are the agent endpoint responses to the first
request and to the retry. -/
def invoke (st : ClientState) (now : Int) (tokenResp : TokenHttpResponse)
    (firstResp retryResp : AgentHttpResponse) :
    Except AuraAgentError (String × ClientState) × Trace :=
  match _get_token_sync st now tokenResp with
  | (Except.error e, n) => (Except.error e, ⟨n, 0, []⟩)
  | (Except.ok (token, st1), n) =>
    if firstResp.status_code ≠ 200 then
      if firstResp.status_code = 401 then
        match _get_token_sync ⟨none⟩ now tokenResp with
        | (Except.error e, n2) => (Except.error e, ⟨n + n2, 1, [token]⟩)
        | (Except.ok (token2, st3), n2) =>
          if retryResp.status_code ≠ 200 then
            (Except.error (AuraAgentError.invocationError
              ("Agent invocation failed: " ++ toString retryResp.status_code ++ " - "
                ++ retryResp.text)), ⟨n + n2, 2, [token, token2]⟩)
          else
            (Except.ok (retryResp.json, st3), ⟨n + n2, 2, [token, token2]⟩)
      else
        (Except.error (AuraAgentError.invocationError
          ("Agent invocation failed: " ++ toString firstResp.status_code ++ " - "
            ++ firstResp.text)), ⟨n, 1, [token]⟩)
    else
      (Except.ok (firstResp.json, st1), ⟨n, 1, [token]⟩)

/-! ## langgraph-neo4j-mcp-agent: agent.py -/

/-- The token-bearing fields of the credentials bundle mutated by agent.py:
`access_token` and `token_expires_at` (ISO-8601 in the source, seconds
here).  Either may be absent from the JSON file. -/
structure Credentials where
  access_token : Option String
  token_expires_at : Option Int
deriving DecidableEq, Repr

/-- Embeds `check_token_expiry` (agent.py lines 71-83): returns True when the
token is still valid, i.e. `now < expires_at - timedelta(minutes=5)`; an
absent (or, in the source, unparsable) `token_expires_at` yields False. -/
def check_token_expiry (c : Credentials) (now : Int) : Bool :=
  match c.token_expires_at with
  | none => false
  | some e => decide (now < e - 300)

/-- Embeds the success path of `refresh_token` (agent.py lines 117-131):
`expires_in = token_data.get("expires_in", 3600)`,
`expires_at = now + expires_in`, then both token fields of the credentials
are overwritten with the new token and expiry. -/
def refresh_token (now : Int) (token_data : TokenBody) : Credentials :=
  let expires_in := token_data.expires_in.getD 3600
  ⟨some token_data.access_token, some (now + expires_in)⟩

/-! ## neo4j-agentcore-mcp-server: client/mcp_operations.py -/

/-- The base-name extraction of `get_tool_map` (mcp_operations.py lines
129-132): when the delimiter occurs in `full_name` the base name is
`full_name.split("___", 1)[1]`, otherwise `full_name` itself.  The guard
`"___" in full_name` coincides with `afterDelim` returning `some`
(theorem `hasDelim_eq_isSome_afterDelim` below). -/
def base_name_of (full_name : String) : String :=
  match afterDelim full_name.data with
  | some r => r.asString
  | none => full_name

/-- Embeds `get_tool_map` (mcp_operations.py lines 89-136): iterate over the
discovered tool names in order, binding each base name to its full name in a
dict (a later duplicate base name overwrites an earlier one). -/
def get_tool_map (tools : List String) : List (String × String) :=
  tools.foldl (fun m full_name => dinsert m (base_name_of full_name) full_name) []

/-- The failure raised by `resolve_tool_name` on a lookup miss: in the
source, `KeyError(f"Unknown tool: " + base_name)` carrying the shown
message (mcp_operations.py line 165); the spec names this error kind
`UnknownToolError`. -/
inductive ResolveErr where
  | unknownTool (msg : String)
deriving DecidableEq, Repr

/-- Embeds `resolve_tool_name` (mcp_operations.py lines 139-165): return
`tool_map[base_name]` when `base_name` is a key of the map, else raise the
unknown-tool error. -/
def resolve_tool_name (tool_map : List (String × String)) (base_name : String) :
    Except ResolveErr String :=
  match dget? tool_map base_name with
  | some v => Except.ok v
  | none => Except.error (ResolveErr.unknownTool ("Unknown tool: " ++ base_name))

/-! ## Demo clients: neo4j-mcp-server/client/demo.py and
simple-oauth-gateway/client/demo.py -/

/-- Embeds `TOKEN_REFRESH_BUFFER_SECONDS` (demo.py line 82, and line 67 of
the gateway demo). -/
def TOKEN_REFRESH_BUFFER_SECONDS : Int := 600

/-- Embeds the cache check of `get_oauth_token` / `get_m2m_token` /
`get_user_token` (demo.py lines 94-96): the cached token is reused exactly
when both module globals are set and
`(expiry - now).total_seconds() > TOKEN_REFRESH_BUFFER_SECONDS`. -/
def demo_cached_token_usable (token_cache : Option String) (token_expiry : Option Int)
    (now : Int) : Bool :=
  match token_cache, token_expiry with
  | some _, some e => decide (e - now > TOKEN_REFRESH_BUFFER_SECONDS)
  | _, _ => false

/-- The base-name extraction of the demo clients
(neo4j-mcp-server/client/demo.py line 187 and
simple-oauth-gateway/client/demo.py line 315):
`tool.name.split("___")[-1] if "___" in tool.name else tool.name`. -/
def demo_base_name (name : String) : String :=
  if hasDelim name.data then ((splitDelim name.data).getLastD []).asString else name

/-- Embeds the tool-name selection of Test 1 of `run_neo4j_tests`
(neo4j-mcp-server/client/demo.py line 203):
`tool_names.get("get-schema", "get-schema")`. -/
def demo_schema_tool (tool_names : List (String × String)) : String :=
  dgetD tool_names "get-schema" "get-schema"

/-- Embeds the tool-name selection of Test 2 of `run_neo4j_tests`
(neo4j-mcp-server/client/demo.py line 230):
`tool_names.get("read-cypher", "read-cypher")`. -/
def demo_read_tool (tool_names : List (String × String)) : String :=
  dgetD tool_names "read-cypher" "read-cypher"

/-- Embeds the tool-name selection of `call_mcp_tools`
(simple-oauth-gateway/client/demo.py line 323):
`tool_names.get("echo", "echo")`. -/
def gw_echo_tool (tool_names : List (String × String)) : String :=
  dgetD tool_names "echo" "echo"

/-! ## simple-oauth-gateway/client/demo.py: module load -/

/-- The names bound in the module namespace of
simple-oauth-gateway/client/demo.py before line 65 executes: the imported
modules and names of lines 22-36 (argparse, asyncio, base64, getpass,
hashlib, hmac, json, os, sys; datetime and timedelta from the datetime
module; boto3; requests; ClientSession and streamablehttp_client from the
mcp package) and the definitions of lines 43-58.  The module never imports
the name Optional from typing, and does not enable postponed evaluation of
annotation expressions via the future-feature flag. -/
def simple_oauth_demo_bound_names : List String :=
  ["argparse", "asyncio", "base64", "getpass", "hashlib", "hmac", "json", "os", "sys",
   "datetime", "timedelta", "boto3", "requests", "ClientSession", "streamablehttp_client",
   "DEFAULT_STACK_NAME", "DEFAULT_SCOPE", "get_default_region"]

/-- Outcome of executing the module top level of the gateway demo. -/
inductive ModuleLoad where
  | loaded
  | nameError (name : String)
deriving DecidableEq, Repr

/-- Models CPython executing the module top level of
simple-oauth-gateway/client/demo.py up to line 65, the annotated assignment
`_token_cache: Optional[str] = None`.  Per PEP 526 a module-level annotation
is evaluated at runtime, so the name `Optional` is looked up in the module
globals (the names bound so far) and then in builtins; `Optional` lives in
the `typing` module and is not a builtin, so the lookup raises `NameError`
when the module never binds it. -/
def load_simple_oauth_demo : ModuleLoad :=
  if simple_oauth_demo_bound_names.contains "Optional" then ModuleLoad.loaded
  else ModuleLoad.nameError "Optional"

/-! ## Helper lemmas: delimiter splitting -/

/-- Stepping `afterDelim` over a head that does not start the delimiter. -/
theorem afterDelim_cons (c : Char) (rest : List Char)
    (hg : ∀ tail, c = '_' → rest = '_' :: '_' :: tail → False) :
    afterDelim (c :: rest) = afterDelim rest := by
  rw [afterDelim.eq_def]
  split
  · rename_i tail heq
    injection heq with h1 h2
    exact (hg tail h1 h2).elim
  · rename_i c2 rest2 heq
    injection heq with h1 h2
    rw [h2]
  · rename_i heq
    exact (List.noConfusion heq)

/-- Stepping `hasDelim` over a head that does not start the delimiter. -/
theorem hasDelim_cons (c : Char) (rest : List Char)
    (hg : ∀ tail, c = '_' → rest = '_' :: '_' :: tail → False) :
    hasDelim (c :: rest) = hasDelim rest := by
  rw [hasDelim.eq_def]
  split
  · rename_i tail heq
    injection heq with h1 h2
    exact (hg tail h1 h2).elim
  · rename_i c2 rest2 heq
    injection heq with h1 h2
    rw [h2]
  · rename_i heq
    exact (List.noConfusion heq)

/-- Stepping `splitDelim` over a head that does not start the delimiter. -/
theorem splitDelim_cons (c : Char) (rest : List Char)
    (hg : ∀ tail, c = '_' → rest = '_' :: '_' :: tail → False) :
    splitDelim (c :: rest) =
      match splitDelim rest with
      | [] => [[c]]
      | p :: ps => (c :: p) :: ps := by
  rw [splitDelim.eq_def]
  split
  · rename_i tail heq
    injection heq with h1 h2
    exact (hg tail h1 h2).elim
  · rename_i c2 rest2 heq
    injection heq with h1 h2
    rw [h1, h2]
  · rename_i heq
    exact (List.noConfusion heq)

/-- Sanity of the embedding: the membership test `hasDelim` (Python
`"___" in s`) agrees with `afterDelim` (Python `s.split("___", 1)`)
finding an occurrence. -/
theorem hasDelim_eq_isSome_afterDelim (s : List Char) :
    hasDelim s = (afterDelim s).isSome := by
  induction s using afterDelim.induct with
  | case1 rest => simp [hasDelim, afterDelim]
  | case2 c rest hg ih =>
    rw [afterDelim_cons c rest hg, hasDelim_cons c rest hg, ih]
  | case3 => simp [hasDelim, afterDelim]

/-- Python `s.split(sep)` always yields at least one part. -/
theorem splitDelim_ne_nil (s : List Char) : splitDelim s ≠ [] := by
  induction s using splitDelim.induct <;> simp_all [splitDelim]

/-- When the delimiter does not occur, the full split is the one-part list. -/
theorem splitDelim_of_afterDelim_none (s : List Char) (h : afterDelim s = none) :
    splitDelim s = [s] := by
  induction s using afterDelim.induct with
  | case1 rest => simp [afterDelim] at h
  | case2 c rest hg ih =>
    rw [afterDelim_cons c rest hg] at h
    rw [splitDelim_cons c rest hg, ih h]
  | case3 => rfl

/-- The full split of `s` is one part followed by the full split of the
suffix after the first delimiter occurrence. -/
theorem splitDelim_of_afterDelim_some (s r : List Char) (h : afterDelim s = some r) :
    ∃ pre, splitDelim s = pre :: splitDelim r := by
  induction s using afterDelim.induct with
  | case1 rest =>
    refine ⟨[], ?_⟩
    rw [afterDelim] at h
    injection h with h1
    rw [splitDelim, h1]
  | case2 c rest hg ih =>
    rw [afterDelim_cons c rest hg] at h
    rcases ih h with ⟨pre, hpre⟩
    refine ⟨c :: pre, ?_⟩
    rw [splitDelim_cons c rest hg, hpre]
  | case3 => simp [afterDelim] at h

/-! ## Helper lemmas: the dict model -/

/-- Lookup after insertion: the inserted key now maps to the inserted value
and every other key is unaffected. -/
theorem dget?_dinsert (m : List (String × String)) (k v b : String) :
    dget? (dinsert m k v) b = if k = b then some v else dget? m b := by
  induction m with
  | nil => simp [dinsert, dget?]
  | cons kv rest ih =>
    rcases kv with ⟨k', v'⟩
    rw [dinsert]
    by_cases hk : k' = k
    · rw [if_pos hk]
      subst hk
      by_cases hb : k' = b
      · rw [dget?, if_pos hb, if_pos hb]
      · rw [dget?, if_neg hb, if_neg hb, dget?, if_neg hb]
    · rw [if_neg hk, dget?]
      by_cases hb : k' = b
      · rw [if_pos hb, dget?, if_pos hb, if_neg (fun h => hk (hb.trans h.symm))]
      · rw [if_neg hb, ih, dget?, if_neg hb]

/-- A successful lookup returns a binding literally present in the dict. -/
theorem mem_of_dget?_eq_some (m : List (String × String)) (b v : String)
    (h : dget? m b = some v) : (b, v) ∈ m := by
  induction m with
  | nil => simp [dget?] at h
  | cons kv rest ih =>
    rcases kv with ⟨k', v'⟩
    by_cases hb : k' = b
    · subst hb
      simp [dget?] at h
      simp [h]
    · simp [dget?, hb] at h
      exact List.mem_cons_of_mem _ (ih h)

/-- Lookup of a key that is not among the keys of the dict misses. -/
theorem dget?_eq_none_of_not_mem_keys (m : List (String × String)) (b : String)
    (h : b ∉ m.map Prod.fst) : dget? m b = none := by
  induction m with
  | nil => rfl
  | cons kv rest ih =>
    rcases kv with ⟨k', v'⟩
    rw [dget?, if_neg (fun hk : k' = b =>
      h (by rw [List.map_cons, ← hk]; exact List.mem_cons_self _ _))]
    exact ih (fun hmem => h (by rw [List.map_cons]; exact List.mem_cons_of_mem _ hmem))

/-- Lookup in the dict built by repeated insertion equals the last matching
assignment of the iteration, starting from the contents of the initial dict. -/
theorem dget?_foldl_dinsert (tools : List String) (m : List (String × String)) (b : String) :
    dget? (tools.foldl (fun m full_name => dinsert m (base_name_of full_name) full_name) m) b =
      tools.foldl (fun acc full_name =>
        if base_name_of full_name = b then some full_name else acc) (dget? m b) := by
  induction tools generalizing m with
  | nil => rfl
  | cons n rest ih =>
    simp only [List.foldl_cons]
    rw [ih, dget?_dinsert]

/-! ## Helper lemmas: token cache -/

/-- The sync and async token getters have identical bodies. -/
theorem _get_token_async_eq_sync : _get_token_async = _get_token_sync := rfl

/-- With a cached token whose expiry is more than 60 seconds away, the token
getter returns the cached access token, leaves the state unchanged and makes
no HTTP request. -/
theorem _get_token_sync_of_fresh (st : ClientState) (t : CachedToken) (now : Int)
    (resp : TokenHttpResponse) (hc : st._cached_token = some t)
    (hfresh : now < t.expires_at - 60) :
    _get_token_sync st now resp = (Except.ok (t.access_token, st), 0) := by
  have hexp : t.is_expired now 60 = false := by
    simp [CachedToken.is_expired]
    omega
  simp [_get_token_sync, hc, hexp]

/-- With no cached token, or an expired one, the token getter performs the
token-exchange request. -/
theorem _get_token_sync_of_stale (st : ClientState) (now : Int) (resp : TokenHttpResponse)
    (hstale : st._cached_token = none ∨
      ∃ t, st._cached_token = some t ∧ t.is_expired now 60 = true) :
    _get_token_sync st now resp = _token_refresh_request now resp := by
  rcases hstale with hnone | ⟨t, hsome, hexp⟩ <;>
    simp_all [_get_token_sync]

/-- A 200 token-endpoint response yields the parsed token, cached with
expiry `now` plus the expires_in of the body, defaulting to 3600. -/
theorem _token_refresh_request_200 (now : Int) (resp : TokenHttpResponse)
    (hok : resp.status_code = 200) :
    _token_refresh_request now resp =
      (Except.ok (resp.json.access_token,
        ⟨some ⟨resp.json.access_token, now + (resp.json.expires_in.getD 3600)⟩⟩), 1) := by
  simp [_token_refresh_request, hok, _parse_token_response, TokenResponse.ofJson]

/-- A token-endpoint response with a status other than 200 raises
`AuthenticationError` carrying the status code and response text. -/
theorem _token_refresh_request_non200 (now : Int) (resp : TokenHttpResponse)
    (hbad : resp.status_code ≠ 200) :
    _token_refresh_request now resp =
      (Except.error (AuraAgentError.authenticationError
        ("Failed to obtain access token: " ++ toString resp.status_code ++ " - "
          ++ resp.text)), 1) := by
  simp [_token_refresh_request, hbad]

/-! ## Claim theorems -/

/-- C1: whenever `_get_token_sync` or `_get_token_async` is called while a
cached token exists whose `expires_at` lies more than the buffer (60
seconds, the `is_expired` default used at both call sites) in the future,
the call returns that cached access token unchanged, performs no HTTP
request (request count 0) and leaves the cached token unmodified (the
client state is returned as it was). -/
theorem getTokenSync_cached_fresh (st : ClientState) (t : CachedToken) (now : Int)
    (resp : TokenHttpResponse) (hc : st._cached_token = some t)
    (hfresh : now < t.expires_at - 60) :
    _get_token_sync st now resp = (Except.ok (t.access_token, st), 0) ∧
    _get_token_async st now resp = (Except.ok (t.access_token, st), 0) := by
  have h := _get_token_sync_of_fresh st t now resp hc hfresh
  exact ⟨h, by rw [_get_token_async_eq_sync]; exact h⟩

/-- Witness for C1 at a concrete fresh token: even against a token endpoint
that would answer 500, no request is made and the cached token is reused. -/
theorem getTokenSync_cached_fresh_witness :
    _get_token_sync ⟨some ⟨"tok", 1000⟩⟩ 0 ⟨500, "boom", ⟨"new", none, none⟩⟩ =
      (Except.ok ("tok", ⟨some ⟨"tok", 1000⟩⟩), 0) ∧
    _get_token_async ⟨some ⟨"tok", 1000⟩⟩ 0 ⟨500, "boom", ⟨"new", none, none⟩⟩ =
      (Except.ok ("tok", ⟨some ⟨"tok", 1000⟩⟩), 0) :=
  getTokenSync_cached_fresh ⟨some ⟨"tok", 1000⟩⟩ ⟨"tok", 1000⟩ 0
    ⟨500, "boom", ⟨"new", none, none⟩⟩ rfl (by decide)

/-- C2: whenever a token refresh succeeds (no usable cached token and a 200
response), the new cached token has `expires_at = now + expires_in` with
`expires_in` defaulting to 3600 when absent from the body, and it replaces
the old cached token wholesale (the resulting state is built from the
response alone); likewise the langgraph `refresh_token` stores
`now + token_data.get("expires_in", 3600)` and overwrites both token fields
of the credentials. -/
theorem tokenRefresh_stores_now_plus_expiresIn (st : ClientState) (now : Int)
    (resp : TokenHttpResponse) (token_data : TokenBody)
    (hstale : st._cached_token = none ∨
      ∃ t, st._cached_token = some t ∧ t.is_expired now 60 = true)
    (hok : resp.status_code = 200) :
    _get_token_sync st now resp =
      (Except.ok (resp.json.access_token,
        ⟨some ⟨resp.json.access_token, now + (resp.json.expires_in.getD 3600)⟩⟩), 1) ∧
    _get_token_async st now resp =
      (Except.ok (resp.json.access_token,
        ⟨some ⟨resp.json.access_token, now + (resp.json.expires_in.getD 3600)⟩⟩), 1) ∧
    refresh_token now token_data =
      ⟨some token_data.access_token, some (now + (token_data.expires_in.getD 3600))⟩ := by
  have h := (_get_token_sync_of_stale st now resp hstale).trans
    (_token_refresh_request_200 now resp hok)
  exact ⟨h, by rw [_get_token_async_eq_sync]; exact h, rfl⟩

/-- Witness for C2: an empty cache and a 200 body without expires_in caches
the token with expiry now + 3600. -/
theorem tokenRefresh_stores_now_plus_expiresIn_witness :
    _get_token_sync ⟨none⟩ 0 ⟨200, "ok", ⟨"abc", none, none⟩⟩ =
      (Except.ok ("abc", ⟨some ⟨"abc", 3600⟩⟩), 1) ∧
    _get_token_async ⟨none⟩ 0 ⟨200, "ok", ⟨"abc", none, none⟩⟩ =
      (Except.ok ("abc", ⟨some ⟨"abc", 3600⟩⟩), 1) ∧
    refresh_token 0 ⟨"abc", none, none⟩ = ⟨some "abc", some 3600⟩ :=
  tokenRefresh_stores_now_plus_expiresIn ⟨none⟩ 0 ⟨200, "ok", ⟨"abc", none, none⟩⟩
    ⟨"abc", none, none⟩ (Or.inl rfl) rfl

/-- C3 counterexample: with a cached fresh token, a 401 on the first agent
request and a 401 on the retry, `invoke` raises `InvocationError` (message
from client.py line 203), not `AuthenticationError` as the claim states. -/
theorem invoke_second401_not_authenticationError :
    invoke ⟨some ⟨"tok0", 1000⟩⟩ 0 ⟨200, "ok", ⟨"tok1", none, none⟩⟩
        ⟨401, "unauthorized", ""⟩ ⟨401, "unauthorized", ""⟩ =
      (Except.error (AuraAgentError.invocationError
        "Agent invocation failed: 401 - unauthorized"), ⟨1, 2, ["tok0", "tok1"]⟩) ∧
    isAuthenticationError (invoke ⟨some ⟨"tok0", 1000⟩⟩ 0 ⟨200, "ok", ⟨"tok1", none, none⟩⟩
        ⟨401, "unauthorized", ""⟩ ⟨401, "unauthorized", ""⟩).1 = false :=
  ⟨rfl, rfl⟩

/-- C3 as amended: on a 401 with a cached fresh token, `invoke` clears the
cache, refreshes the token (exactly one token request), retries the original
request exactly once (exactly two agent requests, the first with the cached
token, the retry with the refreshed one), and a second 401 after the retry
propagates as a terminal `InvocationError` with no further retries. -/
theorem invoke_401_retry_protocol (st : ClientState) (t : CachedToken) (now : Int)
    (tokenResp : TokenHttpResponse) (firstResp retryResp : AgentHttpResponse)
    (hc : st._cached_token = some t) (hfresh : now < t.expires_at - 60)
    (h401 : firstResp.status_code = 401) (htok : tokenResp.status_code = 200) :
    (invoke st now tokenResp firstResp retryResp).2 =
      ⟨1, 2, [t.access_token, tokenResp.json.access_token]⟩ ∧
    (retryResp.status_code = 401 →
      (invoke st now tokenResp firstResp retryResp).1 =
        Except.error (AuraAgentError.invocationError
          ("Agent invocation failed: 401 - " ++ retryResp.text))) := by
  have hsync := _get_token_sync_of_fresh st t now tokenResp hc hfresh
  have hrefresh : _get_token_sync ⟨none⟩ now tokenResp =
      (Except.ok (tokenResp.json.access_token,
        ⟨some ⟨tokenResp.json.access_token,
          now + (tokenResp.json.expires_in.getD 3600)⟩⟩), 1) :=
    _token_refresh_request_200 now tokenResp htok
  constructor
  · by_cases hr : retryResp.status_code = 200 <;>
      simp [invoke, hsync, hrefresh, h401, hr]
  · intro hr401
    simp [invoke, hsync, hrefresh, h401, hr401]
    rfl

/-- Witness for C3 at a concrete double-401 run. -/
theorem invoke_401_retry_protocol_witness :
    (invoke ⟨some ⟨"a", 900⟩⟩ 0 ⟨200, "ok", ⟨"b", some "bearer", some 1800⟩⟩
        ⟨401, "denied", ""⟩ ⟨401, "denied", ""⟩).2 = ⟨1, 2, ["a", "b"]⟩ ∧
    (invoke ⟨some ⟨"a", 900⟩⟩ 0 ⟨200, "ok", ⟨"b", some "bearer", some 1800⟩⟩
        ⟨401, "denied", ""⟩ ⟨401, "denied", ""⟩).1 =
      Except.error (AuraAgentError.invocationError
        "Agent invocation failed: 401 - denied") := by
  have h := invoke_401_retry_protocol ⟨some ⟨"a", 900⟩⟩ ⟨"a", 900⟩ 0
    ⟨200, "ok", ⟨"b", some "bearer", some 1800⟩⟩ ⟨401, "denied", ""⟩ ⟨401, "denied", ""⟩
    rfl (by decide) rfl rfl
  exact ⟨h.1, h.2 rfl⟩

/-- C4: `get_tool_map` maps each base name to the full name of the last
descriptor in iteration order yielding that base name (first conjunct), and
on the concrete inputs of the claim it yields exactly the claimed maps. -/
theorem get_tool_map_spec :
    (∀ (tools : List String) (b : String),
      dget? (get_tool_map tools) b =
        tools.foldl (fun acc full_name =>
          if base_name_of full_name = b then some full_name else acc) none) ∧
    get_tool_map ["foo", "target___foo", "target___bar"] =
      [("foo", "target___foo"), ("bar", "target___bar")] ∧
    get_tool_map ["a___x", "b___x"] = [("x", "b___x")] := by
  refine ⟨fun tools b => ?_, by decide, by decide⟩
  rw [get_tool_map, dget?_foldl_dinsert]
  rfl

/-- C5: `resolve_tool_name` only ever returns a value literally bound to the
looked-up base name in the map (no partial or fuzzy matching), and when the
base name is absent from the keys it fails with the unknown-tool error. -/
theorem resolve_tool_name_exact (m : List (String × String)) (b : String) :
    (∀ v, resolve_tool_name m b = Except.ok v → (b, v) ∈ m) ∧
    (b ∉ m.map Prod.fst →
      resolve_tool_name m b =
        Except.error (ResolveErr.unknownTool ("Unknown tool: " ++ b))) := by
  constructor
  · intro v hv
    rw [resolve_tool_name] at hv
    cases hd : dget? m b with
    | none => rw [hd] at hv; exact (Except.noConfusion hv)
    | some w =>
      rw [hd] at hv
      injection hv with h1
      exact h1 ▸ mem_of_dget?_eq_some m b w hd
  · intro hk
    rw [resolve_tool_name, dget?_eq_none_of_not_mem_keys m b hk]

/-- Witness for C5: a present key resolves to its bound full name, an absent
key fails with the unknown-tool error. -/
theorem resolve_tool_name_exact_witness :
    ("get-schema", "target___get-schema") ∈ [("get-schema", "target___get-schema")] ∧
    resolve_tool_name [("get-schema", "target___get-schema")] "missing" =
      Except.error (ResolveErr.unknownTool "Unknown tool: missing") :=
  ⟨(resolve_tool_name_exact [("get-schema", "target___get-schema")] "get-schema").1
      "target___get-schema" rfl,
   (resolve_tool_name_exact [("get-schema", "target___get-schema")] "missing").2 (by decide)⟩

/-- C6 counterexample: on a name with two delimiter occurrences the demo
computation (last segment) and the reference computation of `get_tool_map`
(substring after the first delimiter) disagree. -/
theorem demoBase_ne_refBase_at_double_delim :
    demo_base_name "a___b___c" = "c" ∧
    base_name_of "a___b___c" = "b___c" ∧
    demo_base_name "a___b___c" ≠ base_name_of "a___b___c" :=
  ⟨by decide, by decide, by decide⟩

/-- C6 as amended: the demo computation agrees with the reference one on
every full name in which the delimiter occurs at most once (no occurrence,
or one occurrence with none in the remainder). -/
theorem demoBase_eq_refBase_of_single_delim (s : String) :
    (hasDelim s.data = false → demo_base_name s = base_name_of s) ∧
    (∀ r, afterDelim s.data = some r → hasDelim r = false →
      demo_base_name s = base_name_of s) := by
  constructor
  · intro h
    have hnone : afterDelim s.data = none := by
      have hiff := hasDelim_eq_isSome_afterDelim s.data
      rw [h] at hiff
      cases hh : afterDelim s.data with
      | none => rfl
      | some r => rw [hh] at hiff; simp at hiff
    rw [demo_base_name, base_name_of, h, hnone]
    simp
  · intro r hsome hr
    have hd : hasDelim s.data = true := by
      rw [hasDelim_eq_isSome_afterDelim, hsome]
      rfl
    have hrnone : afterDelim r = none := by
      have hiff := hasDelim_eq_isSome_afterDelim r
      rw [hr] at hiff
      cases hh : afterDelim r with
      | none => rfl
      | some q => rw [hh] at hiff; simp at hiff
    rcases splitDelim_of_afterDelim_some s.data r hsome with ⟨pre, hpre⟩
    rw [demo_base_name, base_name_of, hd, hsome]
    simp only [if_true]
    rw [hpre, splitDelim_of_afterDelim_none r hrnone]
    simp [List.getLastD]

/-- Witness for C6 at a delimiter-free name and a single-delimiter name. -/
theorem demoBase_eq_refBase_of_single_delim_witness :
    demo_base_name "plain-name" = base_name_of "plain-name" ∧
    demo_base_name "target___foo" = base_name_of "target___foo" :=
  ⟨(demoBase_eq_refBase_of_single_delim "plain-name").1 (by decide),
   (demoBase_eq_refBase_of_single_delim "target___foo").2 "foo".data (by decide) (by decide)⟩

/-- C7 counterexample: the aura-agents check treats a token with 200 seconds
of remaining life as usable (and `_get_token_sync` reuses it with no HTTP
request), which contradicts a usability buffer of 300 or 600 seconds. -/
theorem is_expired_buffer_not_300_or_600 :
    (CachedToken.mk "tok" 1000).is_expired 800 60 = false ∧
    _get_token_sync ⟨some ⟨"tok", 1000⟩⟩ 800 ⟨500, "boom", ⟨"new", none, none⟩⟩ =
      (Except.ok ("tok", ⟨some ⟨"tok", 1000⟩⟩), 0) ∧
    ¬ ((800 : Int) < 1000 - 300) ∧ ¬ ((800 : Int) < 1000 - 600) :=
  ⟨rfl, rfl, by decide, by decide⟩

/-- C7 as amended: every token-usability check in the repo treats a token as
usable iff `now < expires_at - buffer` for a fixed buffer, but the buffer is
60 seconds in aura-agents (the `is_expired` default), 300 seconds in the
langgraph and agentcore agents, and 600 seconds in the demo clients. -/
theorem token_usability_buffers :
    (∀ (t : CachedToken) (now : Int), t.is_expired now 60 = false ↔ now < t.expires_at - 60) ∧
    (∀ (a : Option String) (e now : Int),
      check_token_expiry ⟨a, some e⟩ now = true ↔ now < e - 300) ∧
    (∀ (tok : String) (e now : Int),
      demo_cached_token_usable (some tok) (some e) now = true ↔ now < e - 600) := by
  refine ⟨fun t now => ?_, fun a e now => ?_, fun tok e now => ?_⟩ <;>
    simp [CachedToken.is_expired, check_token_expiry, demo_cached_token_usable,
      TOKEN_REFRESH_BUFFER_SECONDS] <;> omega

/-- C8 counterexample: a 201 response, although 2xx, raises
`AuthenticationError` rather than being parsed and cached: the code tests
for exactly 200, not for 2xx. -/
theorem getTokenSync_201_raises :
    (201 / 100 = 2) ∧
    _get_token_sync ⟨none⟩ 0 ⟨201, "created", ⟨"tok", some "bearer", some 3600⟩⟩ =
      (Except.error (AuraAgentError.authenticationError
        "Failed to obtain access token: 201 - created"), 1) ∧
    _get_token_async ⟨none⟩ 0 ⟨201, "created", ⟨"tok", some "bearer", some 3600⟩⟩ =
      (Except.error (AuraAgentError.authenticationError
        "Failed to obtain access token: 201 - created"), 1) :=
  ⟨rfl, rfl, rfl⟩

/-- C8 as amended: the token exchange (sync and async) raises
`AuthenticationError` carrying the status code and response body exactly
when the status differs from 200, and for a status of exactly 200 it parses
the token and stores it in the cache. -/
theorem getTokenSync_error_iff_not_200 (now : Int) (resp : TokenHttpResponse) :
    (resp.status_code ≠ 200 →
      _get_token_sync ⟨none⟩ now resp =
        (Except.error (AuraAgentError.authenticationError
          ("Failed to obtain access token: " ++ toString resp.status_code ++ " - "
            ++ resp.text)), 1) ∧
      _get_token_async ⟨none⟩ now resp =
        (Except.error (AuraAgentError.authenticationError
          ("Failed to obtain access token: " ++ toString resp.status_code ++ " - "
            ++ resp.text)), 1)) ∧
    (resp.status_code = 200 →
      _get_token_sync ⟨none⟩ now resp =
        (Except.ok (resp.json.access_token,
          ⟨some ⟨resp.json.access_token, now + (resp.json.expires_in.getD 3600)⟩⟩), 1) ∧
      _get_token_async ⟨none⟩ now resp =
        (Except.ok (resp.json.access_token,
          ⟨some ⟨resp.json.access_token, now + (resp.json.expires_in.getD 3600)⟩⟩), 1)) := by
  constructor
  · intro hbad
    have h := _token_refresh_request_non200 now resp hbad
    exact ⟨h, by rw [_get_token_async_eq_sync]; exact h⟩
  · intro hok
    have h := _token_refresh_request_200 now resp hok
    exact ⟨h, by rw [_get_token_async_eq_sync]; exact h⟩

/-- Witness for C8 at a 404 failure and a 200 success. -/
theorem getTokenSync_error_iff_not_200_witness :
    (_get_token_sync ⟨none⟩ 0 ⟨404, "not found", ⟨"x", none, none⟩⟩ =
      (Except.error (AuraAgentError.authenticationError
        "Failed to obtain access token: 404 - not found"), 1) ∧
     _get_token_async ⟨none⟩ 0 ⟨404, "not found", ⟨"x", none, none⟩⟩ =
      (Except.error (AuraAgentError.authenticationError
        "Failed to obtain access token: 404 - not found"), 1)) ∧
    (_get_token_sync ⟨none⟩ 0 ⟨200, "fine", ⟨"xyz", none, none⟩⟩ =
      (Except.ok ("xyz", ⟨some ⟨"xyz", 3600⟩⟩), 1) ∧
     _get_token_async ⟨none⟩ 0 ⟨200, "fine", ⟨"xyz", none, none⟩⟩ =
      (Except.ok ("xyz", ⟨some ⟨"xyz", 3600⟩⟩), 1)) :=
  ⟨(getTokenSync_error_iff_not_200 0 ⟨404, "not found", ⟨"x", none, none⟩⟩).1 (by decide),
   (getTokenSync_error_iff_not_200 0 ⟨200, "fine", ⟨"xyz", none, none⟩⟩).2 rfl⟩

/-- C9: in the demo clients a base name absent from the discovered tool map
does not fail the lookup: `dict.get(name, name)` falls back to the base name
itself, which is then passed verbatim as the tool name of the invocation. -/
theorem demo_tool_fallback (m : List (String × String)) :
    ("get-schema" ∉ m.map Prod.fst → demo_schema_tool m = "get-schema") ∧
    ("read-cypher" ∉ m.map Prod.fst → demo_read_tool m = "read-cypher") ∧
    ("echo" ∉ m.map Prod.fst → gw_echo_tool m = "echo") := by
  refine ⟨fun h => ?_, fun h => ?_, fun h => ?_⟩ <;>
    simp [demo_schema_tool, demo_read_tool, gw_echo_tool, dgetD,
      dget?_eq_none_of_not_mem_keys _ _ h]

/-- Witness for C9 on a map that lacks all three base names. -/
theorem demo_tool_fallback_witness :
    demo_schema_tool [("other", "t___other")] = "get-schema" ∧
    demo_read_tool [("other", "t___other")] = "read-cypher" ∧
    gw_echo_tool [("other", "t___other")] = "echo" :=
  ⟨(demo_tool_fallback [("other", "t___other")]).1 (by decide),
   (demo_tool_fallback [("other", "t___other")]).2.1 (by decide),
   (demo_tool_fallback [("other", "t___other")]).2.2 (by decide)⟩

/-- C10: loading the simple-oauth-gateway demo client module fails with a
NameError on the unbound name Optional, evaluated by the module-level
annotated assignment of line 65 before any function of the module can run. -/
theorem simple_oauth_demo_load_nameError :
    simple_oauth_demo_bound_names.contains "Optional" = false ∧
    load_simple_oauth_demo = ModuleLoad.nameError "Optional" :=
  ⟨by decide, by decide⟩

end AwsStarter
